import Mathlib

/-!
Shallow embedding of the FMultiGrid orchestrator facade (FMultiGrid.cpp):
constructors, boundary setters, coefficient setters, lazy solver-handle
construction, solve / compute_residual / get_grad_phi dispatch, the
Boundary::set_bndry_values case analysis and the ABecCoeff::set_coeffs
transition-distance computation and variant dispatch.

`Real` (double) is embedded as `ℚ`; `BL_ASSERT` failures and
`BoxLib::Abort` calls are embedded as `Except` errors tagged with the
source condition; dereferencing a null pointer is embedded as a
distinguished `nullDeref` outcome.  The external MGT_Solver numerical
kernel is embedded as a record of its construction arguments plus the
configuration calls made on it; its numerical behaviour is a parameter.
-/

namespace FMG

/-- BL_SPACEDIM: the spatial dimension of the build under verification (2-D,
matching the two-component example vectors of the configuration). -/
def BL_SPACEDIM : Nat := 2

/-- IntVect: a vector of BL_SPACEDIM integers (length is maintained by use). -/
abbrev IntVect := List Int

/-- IntVect::TheZeroVector(). -/
def zeroVector : IntVect := List.replicate BL_SPACEDIM 0

/-- Geometry: the part the orchestrator reads, per-level cell size (CellSize()). -/
structure Geometry where
  cellSize : List ℚ
  deriving Repr, DecidableEq, Inhabited

/-- MultiFab: the metadata the orchestrator extracts from a field container:
component count (nComp), ghost cells (nGrow), box layout (boxArray) and
distribution map (DistributionMap).  Boxes are kept opaque as integer ids;
the orchestrator never looks inside them, it only coarsens the layout. -/
structure MultiFab where
  ncomp : Nat
  ngrow : Nat
  boxes : List (List Int)
  dmap : List Nat
  deriving Repr, DecidableEq, Inhabited

/-- Modelled from the spec: `BoxArray::coarsen` lives outside the sampled
sources; the spec says the coarse+fine boundary case "coarsens the fine
field's box layout by the refinement ratio", embedded as componentwise
floor division of each box corner by the ratio. -/
def coarsenBoxes (ba : List (List Int)) (r : IntVect) : List (List Int) :=
  ba.map (fun b => List.zipWith (fun c q => Int.fdiv c q) b r)

/-- Error outcomes: BL_ASSERT failures and BoxLib::Abort carry the source
condition or message; nullDeref marks the dereference of a null pointer
(undefined behaviour in the source, a distinguished outcome here). -/
inductive Err where
  | assertFail (cond : String)
  | abort (msg : String)
  | nullDeref (ptr : String)
  deriving Repr, DecidableEq

/-- FMultiGrid::Boundary: boundary-condition codes plus nullable coarse and
fine field references.  `initilized` (spelling from the source) records
whether a Boundary has been installed by set_bc.
Modelled from the spec where the header is missing: the Boundary
constructors mark the descriptor initialized; the default-constructed
member starts uninitialized. -/
structure Boundary where
  initilized : Bool
  mg_bc : List Int
  crse_phi : Option MultiFab
  phi : Option MultiFab
  deriving Repr, DecidableEq

/-- Default (member-initialized) boundary descriptor: not yet set. -/
def Boundary.uninit : Boundary :=
  { initilized := false, mg_bc := [], crse_phi := none, phi := none }

instance : Inhabited Boundary := ⟨Boundary.uninit⟩

/-- Boundary(mg_bc_codes, crse, fine): the constructor used by set_bc. -/
def Boundary.make (bc : List Int) (crse fine : Option MultiFab) : Boundary :=
  { initilized := true, mg_bc := bc, crse_phi := crse, phi := fine }

/-- The eq_type tag of the coefficient variant. -/
inductive EqType where
  | invalid_eq
  | const_gravity_eq
  | gravity_eq
  | general_eq
  deriving Repr, DecidableEq

/-- FMultiGrid::ABecCoeff: the tagged coefficient variant with its
independently settable sub-values.  `a` is per-level cell-centered,
`b` per-level, per-dimension face-centered.
Modelled from the spec where the header is missing: sub-value flags start
false and the tag starts invalid_eq. -/
structure ABecCoeff where
  eq_type : EqType
  alpha_set : Bool
  a_set : Bool
  beta_set : Bool
  b_set : Bool
  alpha : ℚ
  beta : ℚ
  a : List MultiFab
  b : List (List MultiFab)
  deriving Repr, DecidableEq

/-- Default (member-initialized) coefficient descriptor. -/
def ABecCoeff.uninit : ABecCoeff :=
  { eq_type := .invalid_eq, alpha_set := false, a_set := false,
    beta_set := false, b_set := false, alpha := 0, beta := 0, a := [], b := [] }

instance : Inhabited ABecCoeff := ⟨ABecCoeff.uninit⟩

/-- The configuration call made on the MGT_Solver kernel by
ABecCoeff::set_coeffs, with the arguments handed over. -/
inductive CoeffCall where
  | constGravity (xa xb : List (List ℚ))
  | gravity (b : List (List MultiFab)) (xa xb : List (List ℚ))
  | abeclap (alpha : ℚ) (a : List MultiFab) (beta : ℚ)
      (b : List (List MultiFab)) (xa xb : List (List ℚ))
  deriving Repr, DecidableEq

/-- BndryRegister crse_br(crse_boxes, in_rad, out_rad, extent_rad, ncomp)
followed by copyFrom(crse_phi, crse_phi.nGrow(), 0, 0, ncomp). -/
structure BndryRegister where
  boxes : List (List Int)
  in_rad : Nat
  out_rad : Nat
  extent_rad : Nat
  ncomp : Nat
  src : MultiFab
  src_ngrow : Nat
  deriving Repr, DecidableEq

/-- The boundary-register population performed by
Boundary::set_bndry_values on the MacBndry. -/
inductive BndryCall where
  | homogValues
  | fineValues (fine : MultiFab) (ncomp : Nat)
  | crseFineValues (crse_br : BndryRegister) (fine : MultiFab) (ncomp : Nat)
      (crse_ratio : IntVect)
  deriving Repr, DecidableEq

/-- MGT_Solver handle: the construction arguments captured by
init_mgt_solver (geometry, bc codes, layouts, stencil, nodality,
components, verbosity). -/
structure MGTSolver where
  geom : List Geometry
  mg_bc : List Int
  ba : List (List (List Int))
  dmap : List (List Nat)
  nodal : Bool
  stencil : Nat
  nodal2 : Bool
  nc : Nat
  ncomp : Nat
  verbose : Int
  deriving Repr, DecidableEq

/-- MacBndry(ba[0], ncomp, geom[0]) plus the boundary values installed on
it by set_bndry_values. -/
structure MacBndry where
  ba : List (List Int)
  ncomp : Nat
  geom : Geometry
  values : BndryCall
  deriving Repr, DecidableEq

/-- CC_CROSS_STENCIL stencil tag (value irrelevant, kept as a code). -/
def CC_CROSS_STENCIL : Nat := 0

/-- The FMultiGrid orchestrator state. -/
structure State where
  m_nlevels : Nat
  m_baselevel : Int
  m_crse_ratio : IntVect
  m_stencil : Nat
  m_verbose : Int
  m_geom : List Geometry
  m_bc : Boundary
  m_coeff : ABecCoeff
  m_bndry : Option MacBndry
  m_mgt_solver : Option MGTSolver
  deriving Repr, DecidableEq

/-- The member-initializer state of the multi-geometry constructor. -/
def initStateN (geom : List Geometry) (baselevel : Int) (crse_r : IntVect) :
    State :=
  { m_nlevels := geom.length, m_baselevel := baselevel, m_crse_ratio := crse_r,
    m_stencil := CC_CROSS_STENCIL, m_verbose := 0, m_geom := geom,
    m_bc := Boundary.uninit, m_coeff := ABecCoeff.uninit,
    m_bndry := none, m_mgt_solver := none }

/-- The member-initializer state of the single-geometry constructor. -/
def initState1 (geom : Geometry) (baselevel : Int) (crse_r : IntVect) : State :=
  initStateN [geom] baselevel crse_r

/-- FMultiGrid(geom, baselevel, crse_ratio): single-geometry constructor;
aborts when baselevel > 0 and crse_ratio is the zero vector. -/
def construct1 (geom : Geometry) (baselevel : Int) (crse_r : IntVect) :
    Except Err State :=
  if baselevel > 0 ∧ crse_r = zeroVector then
    .error (.abort "FMultiGrid: must set crse_ratio if baselevel > 0")
  else .ok (initState1 geom baselevel crse_r)

/-- FMultiGrid(geom_array, baselevel, crse_ratio): multi-geometry
constructor (the std::vector and PArray overloads coincide on the
captured state); aborts under the same condition. -/
def constructN (geom : List Geometry) (baselevel : Int) (crse_r : IntVect) :
    Except Err State :=
  if baselevel > 0 ∧ crse_r = zeroVector then
    .error (.abort "FMultiGrid: must set crse_ratio if baselevel > 0")
  else .ok (initStateN geom baselevel crse_r)

/-- m_geom[lev].CellSize(). -/
def State.cellSize (s : State) (lev : Nat) : List ℚ :=
  (s.m_geom.getD lev default).cellSize

/-- The xa transition-distance row computed by ABecCoeff::set_coeffs for
level lev: 0 on the true root level, half a ratio-scaled local cell on a
local root above the global root, half the next-coarser cell otherwise. -/
def xaEntry (s : State) (lev : Nat) : List ℚ :=
  if (lev : Int) + s.m_baselevel = 0 then
    List.replicate BL_SPACEDIM 0
  else if lev = 0 then
    List.zipWith (fun (r : Int) (d : ℚ) => (1/2 : ℚ) * (r : ℚ) * d)
      s.m_crse_ratio (s.cellSize 0)
  else
    (s.cellSize (lev - 1)).map (fun d => (1/2 : ℚ) * d)

/-- The xb transition-distance row computed by ABecCoeff::set_coeffs for
level lev (the source assigns xa and xb separately, identically). -/
def xbEntry (s : State) (lev : Nat) : List ℚ :=
  if (lev : Int) + s.m_baselevel = 0 then
    List.replicate BL_SPACEDIM 0
  else if lev = 0 then
    List.zipWith (fun (r : Int) (d : ℚ) => (1/2 : ℚ) * (r : ℚ) * d)
      s.m_crse_ratio (s.cellSize 0)
  else
    (s.cellSize (lev - 1)).map (fun d => (1/2 : ℚ) * d)

/-- The full xa array over the levels of the instance. -/
def xaArray (s : State) : List (List ℚ) :=
  (List.range s.m_nlevels).map (xaEntry s)

/-- The full xb array over the levels of the instance. -/
def xbArray (s : State) : List (List ℚ) :=
  (List.range s.m_nlevels).map (xbEntry s)

/-- set_bc(mg_bc): homogeneous boundary, no field references. -/
def set_bc0 (s : State) (bc : List Int) : Except Err State :=
  if s.m_bc.initilized then .error (.assertFail "!m_bc.initilized")
  else .ok { s with m_bc := Boundary.make bc none none }

/-- set_bc(mg_bc, phi): fine field only. -/
def set_bc1 (s : State) (bc : List Int) (phi : MultiFab) : Except Err State :=
  if s.m_bc.initilized then .error (.assertFail "!m_bc.initilized")
  else .ok { s with m_bc := Boundary.make bc none (some phi) }

/-- set_bc(mg_bc, crse_phi, phi): coarse and fine fields; asserts the
refinement ratio is not the zero vector before the initialization check. -/
def set_bc2 (s : State) (bc : List Int) (crse_phi phi : MultiFab) :
    Except Err State :=
  if s.m_crse_ratio = zeroVector then
    .error (.assertFail "m_crse_ratio != IntVect::TheZeroVector()")
  else if s.m_bc.initilized then .error (.assertFail "!m_bc.initilized")
  else .ok { s with m_bc := Boundary.make bc (some crse_phi) (some phi) }

/-- set_const_gravity_coeffs(): requires the tag still invalid_eq. -/
def set_const_gravity_coeffs (s : State) : Except Err State :=
  if ¬ (s.m_coeff.eq_type = .invalid_eq) then
    .error (.assertFail "m_coeff.eq_type == invalid_eq")
  else .ok { s with m_coeff :=
    { s.m_coeff with eq_type := .const_gravity_eq } }

/-- set_gravity_coeffs(PArray b): single-level overload, b indexed by
spatial dimension. -/
def set_gravity_coeffs1 (s : State) (b : List MultiFab) : Except Err State :=
  if ¬ (s.m_coeff.eq_type = .invalid_eq) then
    .error (.assertFail "m_coeff.eq_type == invalid_eq")
  else if ¬ (s.m_nlevels = 1) then .error (.assertFail "m_nlevels == 1")
  else if ¬ (b.length = BL_SPACEDIM) then
    .error (.assertFail "b.size() == BL_SPACEDIM")
  else .ok { s with m_coeff :=
    { s.m_coeff with eq_type := .gravity_eq, b_set := true, b := [b] } }

/-- set_gravity_coeffs(Array of PArray b): multi-level overload. -/
def set_gravity_coeffsN (s : State) (b : List (List MultiFab)) :
    Except Err State :=
  if ¬ (s.m_coeff.eq_type = .invalid_eq) then
    .error (.assertFail "m_coeff.eq_type == invalid_eq")
  else if ¬ (b.length = s.m_nlevels) then
    .error (.assertFail "b.size() == m_nlevels")
  else if ¬ ((b.getD 0 []).length = BL_SPACEDIM) then
    .error (.assertFail "b[0].size() == BL_SPACEDIM")
  else .ok { s with m_coeff :=
    { s.m_coeff with eq_type := .gravity_eq, b_set := true, b := b } }

/-- set_alpha(alpha): transitions to general_eq, alpha settable once. -/
def set_alpha (s : State) (alpha : ℚ) : Except Err State :=
  if ¬ (s.m_coeff.eq_type = .invalid_eq ∨ s.m_coeff.eq_type = .general_eq) then
    .error (.assertFail "m_coeff.eq_type == invalid_eq or general_eq")
  else if s.m_coeff.alpha_set then .error (.assertFail "!m_coeff.alpha_set")
  else .ok { s with m_coeff :=
    { s.m_coeff with eq_type := .general_eq, alpha_set := true, alpha := alpha } }

/-- set_acoef(MultiFab a): single-level overload. -/
def set_acoef1 (s : State) (a : MultiFab) : Except Err State :=
  if ¬ (s.m_coeff.eq_type = .invalid_eq ∨ s.m_coeff.eq_type = .general_eq) then
    .error (.assertFail "m_coeff.eq_type == invalid_eq or general_eq")
  else if s.m_coeff.a_set then .error (.assertFail "!m_coeff.a_set")
  else if ¬ (s.m_nlevels = 1) then .error (.assertFail "m_nlevels == 1")
  else .ok { s with m_coeff :=
    { s.m_coeff with eq_type := .general_eq, a_set := true, a := [a] } }

/-- set_acoef(PArray a): multi-level overload. -/
def set_acoefN (s : State) (a : List MultiFab) : Except Err State :=
  if ¬ (s.m_coeff.eq_type = .invalid_eq ∨ s.m_coeff.eq_type = .general_eq) then
    .error (.assertFail "m_coeff.eq_type == invalid_eq or general_eq")
  else if s.m_coeff.a_set then .error (.assertFail "!m_coeff.a_set")
  else if ¬ (s.m_nlevels = a.length) then
    .error (.assertFail "m_nlevels == a.size()")
  else .ok { s with m_coeff :=
    { s.m_coeff with eq_type := .general_eq, a_set := true, a := a } }

/-- set_beta(beta). -/
def set_beta (s : State) (beta : ℚ) : Except Err State :=
  if ¬ (s.m_coeff.eq_type = .invalid_eq ∨ s.m_coeff.eq_type = .general_eq) then
    .error (.assertFail "m_coeff.eq_type == invalid_eq or general_eq")
  else if s.m_coeff.beta_set then .error (.assertFail "!m_coeff.beta_set")
  else .ok { s with m_coeff :=
    { s.m_coeff with eq_type := .general_eq, beta_set := true, beta := beta } }

/-- set_bcoef(MultiFab* b): single-level overload taking BL_SPACEDIM
face fields through a raw pointer (embedded as the list of those fields). -/
def set_bcoefP (s : State) (b : List MultiFab) : Except Err State :=
  if ¬ (s.m_coeff.eq_type = .invalid_eq ∨ s.m_coeff.eq_type = .general_eq) then
    .error (.assertFail "m_coeff.eq_type == invalid_eq or general_eq")
  else if s.m_coeff.b_set then .error (.assertFail "!m_coeff.b_set")
  else if ¬ (s.m_nlevels = 1) then .error (.assertFail "m_nlevels == 1")
  else .ok { s with m_coeff :=
    { s.m_coeff with
      eq_type := .general_eq,
      b_set := true,
      b := [b.take BL_SPACEDIM] } }

/-- set_bcoef(PArray b): single-level overload, b indexed by spatial
dimension, its size checked against BL_SPACEDIM. -/
def set_bcoef1 (s : State) (b : List MultiFab) : Except Err State :=
  if ¬ (s.m_coeff.eq_type = .invalid_eq ∨ s.m_coeff.eq_type = .general_eq) then
    .error (.assertFail "m_coeff.eq_type == invalid_eq or general_eq")
  else if s.m_coeff.b_set then .error (.assertFail "!m_coeff.b_set")
  else if ¬ (s.m_nlevels = 1) then .error (.assertFail "m_nlevels == 1")
  else if ¬ (b.length = BL_SPACEDIM) then
    .error (.assertFail "b.size() == BL_SPACEDIM")
  else .ok { s with m_coeff :=
    { s.m_coeff with eq_type := .general_eq, b_set := true, b := [b] } }

/-- set_bcoef(Array of PArray b): multi-level overload. -/
def set_bcoefN (s : State) (b : List (List MultiFab)) : Except Err State :=
  if ¬ (s.m_coeff.eq_type = .invalid_eq ∨ s.m_coeff.eq_type = .general_eq) then
    .error (.assertFail "m_coeff.eq_type == invalid_eq or general_eq")
  else if s.m_coeff.b_set then .error (.assertFail "!m_coeff.b_set")
  else if ¬ (s.m_nlevels = b.length) then
    .error (.assertFail "m_nlevels == b.size()")
  else if ¬ ((b.getD 0 []).length = BL_SPACEDIM) then
    .error (.assertFail "b[0].size() == BL_SPACEDIM")
  else .ok { s with m_coeff :=
    { s.m_coeff with eq_type := .general_eq, b_set := true, b := b } }

/-- Boundary::set_bndry_values(bndry, crse_ratio): the four-way case
analysis on the nullable coarse and fine field references, returning the
boundary-register population performed on the MacBndry. -/
def Boundary.set_bndry_values (bc : Boundary) (crse_r : IntVect) :
    Except Err BndryCall :=
  match bc.crse_phi, bc.phi with
  | none, none => .ok .homogValues
  | none, some p => .ok (.fineValues p p.ncomp)
  | some c, some p =>
      if crse_r = zeroVector then
        .error (.assertFail "crse_ratio != IntVect::TheZeroVector()")
      else
        let ncomp := p.ncomp
        let crse_boxes := coarsenBoxes p.boxes crse_r
        let crse_br : BndryRegister :=
          { boxes := crse_boxes, in_rad := 0, out_rad := 1, extent_rad := 2,
            ncomp := ncomp, src := c, src_ngrow := c.ngrow }
        .ok (.crseFineValues crse_br p ncomp crse_r)
  | some _, none =>
      .error (.abort "FMultiGrid::Boundary::build_bndry: How did we get here?")

/-- ABecCoeff::set_coeffs(mgt_solver, fmg): asserts the base level and
ratio invariants, computes the xa/xb transition arrays, then dispatches
on the coefficient variant, checking the required sub-values. -/
def ABecCoeff.set_coeffs (c : ABecCoeff) (s : State) : Except Err CoeffCall :=
  if ¬ (s.m_baselevel ≥ 0) then .error (.assertFail "fmg.m_baselevel >= 0")
  else if ¬ (s.m_baselevel = 0 ∨ ¬ s.m_crse_ratio = zeroVector) then
    .error (.assertFail
      "fmg.m_baselevel == 0 or fmg.m_crse_ratio != IntVect::TheZeroVector()")
  else
    let xa := xaArray s
    let xb := xbArray s
    if c.eq_type = .const_gravity_eq then .ok (.constGravity xa xb)
    else if c.eq_type = .gravity_eq then
      if ¬ c.b_set then .error (.assertFail "b_set")
      else .ok (.gravity c.b xa xb)
    else if c.eq_type = .general_eq then
      if ¬ (c.alpha_set ∧ c.a_set ∧ c.beta_set ∧ c.b_set) then
        .error (.assertFail "alpha_set and a_set and beta_set and b_set")
      else .ok (.abeclap c.alpha c.a c.beta c.b xa xb)
    else .error (.abort "FMultiGrid::ABecCoeff::set_coeffs: How did we get here?")

/-- init_mgt_solver(phi): asserts the solve preconditions, extracts the
distributed layouts from the phi levels, constructs the MGT_Solver and
the MacBndry, installs the boundary values and the coefficients.
Returns the updated state together with the handles it built. -/
def init_mgt_solver (s : State) (phi : List MultiFab) :
    Except Err (State × MGTSolver × MacBndry) :=
  if ¬ s.m_bc.initilized then .error (.assertFail "m_bc.initilized")
  else if s.m_coeff.eq_type = .invalid_eq then
    .error (.assertFail "m_coeff.eq_type != invalid_eq")
  else if ¬ (s.m_mgt_solver = none) then
    .error (.assertFail "m_mgt_solver == 0")
  else
    let ncomp := (phi.getD 0 default).ncomp
    let dmap := (List.range s.m_nlevels).map (fun i => (phi.getD i default).dmap)
    let ba := (List.range s.m_nlevels).map (fun i => (phi.getD i default).boxes)
    let nodal := false
    let nc := 0
    let mgt : MGTSolver :=
      { geom := s.m_geom, mg_bc := s.m_bc.mg_bc, ba := ba, dmap := dmap,
        nodal := nodal, stencil := s.m_stencil, nodal2 := nodal, nc := nc,
        ncomp := ncomp, verbose := s.m_verbose }
    match s.m_bc.set_bndry_values s.m_crse_ratio with
    | .error e => .error e
    | .ok bvals =>
        let bndry : MacBndry :=
          { ba := ba.getD 0 [], ncomp := ncomp, geom := s.m_geom.getD 0 default,
            values := bvals }
        match s.m_coeff.set_coeffs s with
        | .error e => .error e
        | .ok _ =>
            .ok ({ s with m_mgt_solver := some mgt, m_bndry := some bndry },
                 mgt, bndry)

/-- The numerical behaviour of the external MGT_Solver kernel: given the
handle, the per-level phi and rhs fields, the boundary register and the
solve parameters, the final residual norm it reports. -/
def KernelSolve : Type :=
  MGTSolver → List MultiFab → List MultiFab → MacBndry →
    ℚ → ℚ → Int → Int → ℚ

/-- The residual fields the external kernel writes for compute_residual. -/
def KernelResidual : Type :=
  MGTSolver → List MultiFab → List MultiFab → List MultiFab → MacBndry →
    List MultiFab

/-- solve(PArray phi, PArray rhs, ...): the multi-level overload; asserts
the preconditions, lazily constructs the solver handle through
init_mgt_solver, then delegates to the kernel and returns the final
residual norm. -/
def solveN (k : KernelSolve) (s : State) (phi rhs : List MultiFab)
    (rel_tol abs_tol : ℚ) (always_use_bnorm need_grad_phi verbose : Int) :
    Except Err (State × ℚ) :=
  if ¬ s.m_bc.initilized then .error (.assertFail "m_bc.initilized")
  else if s.m_coeff.eq_type = .invalid_eq then
    .error (.assertFail "m_coeff.eq_type != invalid_eq")
  else if ¬ (s.m_mgt_solver = none) then
    .error (.assertFail "m_mgt_solver == 0")
  else if ¬ (s.m_bndry = none) then .error (.assertFail "m_bndry == 0")
  else
    match init_mgt_solver s phi with
    | .error e => .error e
    | .ok (s2, mgt, bndry) =>
        .ok (s2, k mgt phi rhs bndry rel_tol abs_tol always_use_bnorm
               need_grad_phi)

/-- FMultiGrid::Copy(PArray dst, MultiFab src): wraps a single field as a
one-element level array. -/
def Copy1 (src : MultiFab) : List MultiFab := [src]

/-- solve(MultiFab phi, MultiFab rhs, ...): the single-field overload;
wraps phi and rhs through Copy and delegates to the multi-level overload. -/
def solve1 (k : KernelSolve) (s : State) (phi rhs : MultiFab)
    (rel_tol abs_tol : ℚ) (always_use_bnorm need_grad_phi verbose : Int) :
    Except Err (State × ℚ) :=
  solveN k s (Copy1 phi) (Copy1 rhs) rel_tol abs_tol always_use_bnorm
    need_grad_phi verbose

/-- compute_residual(PArray phi, PArray rhs, PArray res): multi-level
overload; same preconditions and lazy-construction path as solve, with the
kernel computing the residual fields. -/
def compute_residualN (k : KernelResidual) (s : State)
    (phi rhs res : List MultiFab) : Except Err (State × List MultiFab) :=
  if ¬ s.m_bc.initilized then .error (.assertFail "m_bc.initilized")
  else if s.m_coeff.eq_type = .invalid_eq then
    .error (.assertFail "m_coeff.eq_type != invalid_eq")
  else if ¬ (s.m_mgt_solver = none) then
    .error (.assertFail "m_mgt_solver == 0")
  else if ¬ (s.m_bndry = none) then .error (.assertFail "m_bndry == 0")
  else
    match init_mgt_solver s phi with
    | .error e => .error e
    | .ok (s2, mgt, bndry) => .ok (s2, k mgt phi rhs res bndry)

/-- compute_residual(MultiFab phi, MultiFab rhs, MultiFab res): the
single-field overload; wraps the fields through Copy and delegates. -/
def compute_residual1 (k : KernelResidual) (s : State)
    (phi rhs res : MultiFab) : Except Err (State × List MultiFab) :=
  compute_residualN k s (Copy1 phi) (Copy1 rhs) (Copy1 res)

/-- get_grad_phi(PArray grad_phi): the single-level overload; asserts
m_nlevels == 1 and then calls get_fluxes(0, grad_phi, dx) on the solver
handle — dereferencing it with no precondition check on its existence.
Returns the handle and the cell size used for the flux extraction. -/
def get_grad_phi1 (s : State) : Except Err (MGTSolver × List ℚ) :=
  if ¬ (s.m_nlevels = 1) then .error (.assertFail "m_nlevels == 1")
  else
    match s.m_mgt_solver with
    | none => .error (.nullDeref "m_mgt_solver")
    | some mgt => .ok (mgt, s.cellSize 0)

/-- get_grad_phi(Array of PArray grad_phi): the multi-level overload;
loops over the levels, dereferencing the solver handle for each
get_fluxes(ilev, grad_phi[ilev], dx) call with no precondition check
(when there are zero levels the loop body never runs).  Returns the
per-level cell sizes handed to the flux extraction. -/
def get_grad_phiN (s : State) : Except Err (List (List ℚ)) :=
  if s.m_nlevels = 0 then .ok []
  else
    match s.m_mgt_solver with
    | none => .error (.nullDeref "m_mgt_solver")
    | some _ => .ok ((List.range s.m_nlevels).map (s.cellSize))

/-- Whether an embedded call completed without hitting an assertion or an
abort. -/
def succeeded {α : Type} : Except Err α → Bool
  | .ok _ => true
  | .error _ => false

/-! Concrete fixtures used to exercise the embedding. -/

/-- A 2-D geometry with cell size (0.1, 0.1). -/
def geomTenth : Geometry := { cellSize := [1/10, 1/10] }

/-- A 2-D geometry with cell size (0.05, 0.05). -/
def geomTwentieth : Geometry := { cellSize := [1/20, 1/20] }

/-- A small concrete field container. -/
def mfSample : MultiFab :=
  { ncomp := 1, ngrow := 1, boxes := [[0, 0], [4, 4]], dmap := [0] }

/-- A second concrete field container. -/
def mfSample2 : MultiFab :=
  { ncomp := 1, ngrow := 0, boxes := [[8, 8]], dmap := [0] }

/-- A trivial concrete numerical kernel reporting residual norm 0. -/
def kernelZero : KernelSolve := fun _ _ _ _ _ _ _ _ => 0

/-- A trivial concrete residual kernel echoing the res fields. -/
def kernelResidZero : KernelResidual := fun _ _ _ res _ => res

/-- A fully configured instance, ready for its first solve: boundary
descriptor installed and constant-gravity coefficients selected. -/
def stReady : State :=
  { initState1 geomTenth 0 zeroVector with
      m_bc := Boundary.make [1, 1, 1, 1] none none,
      m_coeff := { ABecCoeff.uninit with eq_type := .const_gravity_eq } }

/-- The solver handle init_mgt_solver builds for stReady with phi
wrapping mfSample. -/
def mgtReady : MGTSolver :=
  { geom := [geomTenth], mg_bc := [1, 1, 1, 1], ba := [mfSample.boxes],
    dmap := [[0]], nodal := false, stencil := CC_CROSS_STENCIL,
    nodal2 := false, nc := 0, ncomp := 1, verbose := 0 }

/-- The boundary register built alongside mgtReady. -/
def bndryReady : MacBndry :=
  { ba := mfSample.boxes, ncomp := 1, geom := geomTenth,
    values := .homogValues }

/-- stReady after its first successful solve: both handles installed. -/
def stSolved : State :=
  { stReady with m_mgt_solver := some mgtReady, m_bndry := some bndryReady }

end FMG

namespace FMG

/-! Theorems settling the claims. -/

/-- C1: Transition-distance computation: for every level L with global base
level B ≥ 0, the xa and xb rows computed before configuring the kernel
agree, and per dimension: L + B = 0 gives 0; L = 0 with B > 0 gives
0.5 * refinement_ratio * cell_size_of_level(0); L > 0 gives
0.5 * cell_size_of_level(L-1).  In particular base_level=0 with one level
of cell size (0.1, 0.1) yields xa = xb = (0, 0), and base_level=1 with
ratio (2, 2) and local-level-0 cell size (0.05, 0.05) yields
xa = xb = (0.05, 0.05). -/
theorem C1_transition_distances (s : State) (lev n : Nat)
    (hb : 0 ≤ s.m_baselevel) (hlev : lev < s.m_nlevels) (hn : n < BL_SPACEDIM)
    (hr : s.m_crse_ratio.length = BL_SPACEDIM)
    (hd : ∀ l, l < s.m_nlevels → (s.cellSize l).length = BL_SPACEDIM) :
    (xbEntry s lev = xaEntry s lev) ∧
    ((lev : Int) + s.m_baselevel = 0 → (xaEntry s lev).getD n 0 = 0) ∧
    ((lev : Int) + s.m_baselevel ≠ 0 → lev = 0 →
      (xaEntry s lev).getD n 0
        = (1/2 : ℚ) * ((s.m_crse_ratio.getD n 0 : ℤ) : ℚ)
            * (s.cellSize 0).getD n 0) ∧
    (0 < lev →
      (xaEntry s lev).getD n 0 = (1/2 : ℚ) * (s.cellSize (lev - 1)).getD n 0) ∧
    (construct1 geomTenth 0 zeroVector = .ok (initState1 geomTenth 0 zeroVector)
      ∧ xaEntry (initState1 geomTenth 0 zeroVector) 0 = [0, 0]
      ∧ xbEntry (initState1 geomTenth 0 zeroVector) 0 = [0, 0]) ∧
    (construct1 geomTwentieth 1 [2, 2]
        = .ok (initState1 geomTwentieth 1 [2, 2])
      ∧ xaEntry (initState1 geomTwentieth 1 [2, 2]) 0 = [1/20, 1/20]
      ∧ xbEntry (initState1 geomTwentieth 1 [2, 2]) 0 = [1/20, 1/20]) := by
  refine ⟨rfl, ?_, ?_, ?_,
    ⟨by rfl,
     by norm_num [xaEntry, initState1, initStateN, State.cellSize, geomTenth,
       BL_SPACEDIM, zeroVector, List.replicate],
     by norm_num [xbEntry, initState1, initStateN, State.cellSize, geomTenth,
       BL_SPACEDIM, zeroVector, List.replicate]⟩,
    ⟨by rfl,
     by norm_num [xaEntry, initState1, initStateN, State.cellSize, geomTwentieth,
       BL_SPACEDIM],
     by norm_num [xbEntry, initState1, initStateN, State.cellSize, geomTwentieth,
       BL_SPACEDIM]⟩⟩
  · intro h0
    have hlen : (List.replicate BL_SPACEDIM (0 : ℚ)).length = BL_SPACEDIM :=
      List.length_replicate _ _
    simp only [xaEntry, if_pos h0]
    rw [List.getD_eq_getElem _ _ (by rw [hlen]; exact hn)]
    simp [List.getElem_replicate]
  · intro h0 hl0
    subst hl0
    have h0' : ¬ (((0 : Nat) : Int) + s.m_baselevel = 0) := h0
    unfold xaEntry
    rw [if_neg h0', if_pos rfl]
    have hz : (List.zipWith (fun (r : Int) (d : ℚ) => (1/2 : ℚ) * (r : ℚ) * d)
        s.m_crse_ratio (s.cellSize 0)).length = BL_SPACEDIM := by
      rw [List.length_zipWith, hr, hd 0 hlev]
      exact Nat.min_self _
    rw [List.getD_eq_getElem _ _ (by rw [hz]; exact hn)]
    rw [List.getElem_zipWith]
    rw [List.getD_eq_getElem _ _ (by rw [hr]; exact hn),
        List.getD_eq_getElem _ _ (by rw [hd 0 hlev]; exact hn)]
  · intro hpos
    have hne : lev ≠ 0 := Nat.pos_iff_ne_zero.mp hpos
    have h0' : ¬ ((lev : Nat) : Int) + s.m_baselevel = 0 := by
      have : (1 : Int) ≤ (lev : Int) := by exact_mod_cast hpos
      omega
    have hlm : lev - 1 < s.m_nlevels := lt_of_le_of_lt (Nat.sub_le _ _) hlev
    have hm : ((s.cellSize (lev - 1)).map (fun d => (1/2 : ℚ) * d)).length
        = BL_SPACEDIM := by rw [List.length_map, hd _ hlm]
    simp only [xaEntry, if_neg h0', if_neg hne]
    rw [List.getD_eq_getElem _ _ (by rw [hm]; exact hn)]
    rw [List.getElem_map]
    rw [List.getD_eq_getElem _ _ (by rw [hd _ hlm]; exact hn)]

/-- Witness for C1 at the base_level=1, ratio (2,2), cell size (0.05,0.05)
fixture, dimension 0. -/
theorem C1_transition_distances_witness :
    (xbEntry (initState1 geomTwentieth 1 [2, 2]) 0
        = xaEntry (initState1 geomTwentieth 1 [2, 2]) 0) ∧
    (((0 : Nat) : Int) + (initState1 geomTwentieth 1 [2, 2]).m_baselevel ≠ 0 →
      (0 : Nat) = 0 →
      (xaEntry (initState1 geomTwentieth 1 [2, 2]) 0).getD 0 0
        = (1/2 : ℚ)
            * (((initState1 geomTwentieth 1 [2, 2]).m_crse_ratio.getD 0 0 : ℤ) : ℚ)
            * ((initState1 geomTwentieth 1 [2, 2]).cellSize 0).getD 0 0) := by
  have h := C1_transition_distances (initState1 geomTwentieth 1 [2, 2]) 0 0
    (by decide) (by decide) (by decide) (by decide)
    (by
      intro l hl
      have hl0 : l = 0 := by
        simpa [initState1, initStateN] using hl
      subst hl0
      decide)
  exact ⟨h.1, h.2.2.1⟩

/-- C2 counterexample: on a freshly constructed single-level instance — no
solve has been called, so the solver handle is still null — get_grad_phi
passes its only precondition check (m_nlevels == 1) and dereferences the
null solver handle; the outcome is the null-dereference marker, not an
assertion (precondition) failure. -/
theorem C2_counterexample :
    (initState1 geomTenth 0 zeroVector).m_mgt_solver = none ∧
    get_grad_phi1 (initState1 geomTenth 0 zeroVector)
      = .error (.nullDeref "m_mgt_solver") :=
  ⟨rfl, rfl⟩

/-- C2 amended: on an instance whose solver handle has not been
constructed, get_grad_phi performs no precondition check on the handle:
the single-level overload checks only m_nlevels == 1 and then dereferences
the null handle, and the multi-level overload dereferences it in its
per-level loop (whenever there is at least one level). -/
theorem C2_null_handle_deref (s : State)
    (h1 : s.m_nlevels = 1) (h2 : s.m_mgt_solver = none) :
    get_grad_phi1 s = .error (.nullDeref "m_mgt_solver") ∧
    get_grad_phiN s = .error (.nullDeref "m_mgt_solver") := by
  unfold get_grad_phi1 get_grad_phiN
  rw [h1, h2]
  simp

/-- Witness for C2's amended theorem at a freshly constructed instance. -/
theorem C2_null_handle_deref_witness :
    get_grad_phi1 (initState1 geomTenth 0 zeroVector)
      = .error (.nullDeref "m_mgt_solver") ∧
    get_grad_phiN (initState1 geomTenth 0 zeroVector)
      = .error (.nullDeref "m_mgt_solver") :=
  C2_null_handle_deref (initState1 geomTenth 0 zeroVector) rfl rfl

/-- C3 counterexample: with base_level = 1 > 0 and refinement ratio (2, 0)
— a ratio that is not non-zero in every dimension, its second component
being zero — both constructors succeed instead of failing: the source
aborts only when the ratio equals the zero vector. -/
theorem C3_counterexample :
    ((1 : Int) > 0) ∧
    (([2, 0] : IntVect).getD 1 0 = 0) ∧
    (¬ (([2, 0] : IntVect) = zeroVector)) ∧
    construct1 geomTenth 1 [2, 0] = .ok (initState1 geomTenth 1 [2, 0]) ∧
    constructN [geomTenth, geomTwentieth] 1 [2, 0]
      = .ok (initStateN [geomTenth, geomTwentieth] 1 [2, 0]) :=
  ⟨by decide, by decide, by decide, rfl, rfl⟩

/-- C3 amended: construction fails (with the fatal crse_ratio
ConfigurationError) exactly when base_level > 0 and the refinement ratio
equals the zero vector; with base_level = 0 it succeeds regardless of the
ratio.  This holds for both the single-geometry and the sequence
constructors. -/
theorem C3_construction_guard (geom : Geometry) (geoms : List Geometry)
    (b : Int) (r : IntVect) :
    (succeeded (construct1 geom b r) = false ↔ (b > 0 ∧ r = zeroVector)) ∧
    (succeeded (constructN geoms b r) = false ↔ (b > 0 ∧ r = zeroVector)) ∧
    (b = 0 →
      construct1 geom b r = .ok (initState1 geom b r) ∧
      constructN geoms b r = .ok (initStateN geoms b r)) ∧
    (b > 0 ∧ r = zeroVector →
      construct1 geom b r
        = .error (.abort "FMultiGrid: must set crse_ratio if baselevel > 0") ∧
      constructN geoms b r
        = .error (.abort "FMultiGrid: must set crse_ratio if baselevel > 0")) := by
  refine ⟨?_, ?_, ?_, ?_⟩
  · unfold construct1
    split
    · simpa [succeeded] using ‹b > 0 ∧ r = zeroVector›
    · simpa [succeeded] using ‹¬ (b > 0 ∧ r = zeroVector)›
  · unfold constructN
    split
    · simpa [succeeded] using ‹b > 0 ∧ r = zeroVector›
    · simpa [succeeded] using ‹¬ (b > 0 ∧ r = zeroVector)›
  · intro hb
    subst hb
    constructor
    · unfold construct1
      rw [if_neg (by simp)]
    · unfold constructN
      rw [if_neg (by simp)]
  · intro hc
    constructor
    · unfold construct1
      rw [if_pos hc]
    · unfold constructN
      rw [if_pos hc]

/-- Witness for C3's amended theorem at base_level 1 with the zero ratio
and at base_level 0. -/
theorem C3_construction_guard_witness :
    (succeeded (construct1 geomTenth 1 zeroVector) = false
      ↔ ((1 : Int) > 0 ∧ zeroVector = zeroVector)) ∧
    ((0 : Int) = 0 →
      construct1 geomTenth 0 [5, 7] = .ok (initState1 geomTenth 0 [5, 7]) ∧
      constructN [geomTenth] 0 [5, 7] = .ok (initStateN [geomTenth] 0 [5, 7])) := by
  have h := C3_construction_guard geomTenth [geomTenth] 1 zeroVector
  have h0 := C3_construction_guard geomTenth [geomTenth] 0 [5, 7]
  exact ⟨h.1, h0.2.2.1⟩

/-- C4: variant dispatch when the coefficient model is applied to the
kernel: ConstantCoefficient configures the constant-gravity form;
FieldCoefficient requires the face-centered B field set and configures the
gravity form with B (asserting otherwise); GeneralizedCoefficient requires
alpha, A, beta and B all set and configures the general ABecLaplacian form
(asserting otherwise); a variant left Uninitialized aborts fatally. -/
theorem C4_variant_dispatch (c : ABecCoeff) (s : State)
    (hb : s.m_baselevel ≥ 0)
    (hr : s.m_baselevel = 0 ∨ ¬ s.m_crse_ratio = zeroVector) :
    (c.eq_type = .const_gravity_eq →
      c.set_coeffs s = .ok (.constGravity (xaArray s) (xbArray s))) ∧
    (c.eq_type = .gravity_eq → c.b_set = true →
      c.set_coeffs s = .ok (.gravity c.b (xaArray s) (xbArray s))) ∧
    (c.eq_type = .gravity_eq → c.b_set = false →
      c.set_coeffs s = .error (.assertFail "b_set")) ∧
    (c.eq_type = .general_eq → c.alpha_set = true → c.a_set = true →
      c.beta_set = true → c.b_set = true →
      c.set_coeffs s
        = .ok (.abeclap c.alpha c.a c.beta c.b (xaArray s) (xbArray s))) ∧
    (c.eq_type = .general_eq →
      ¬ (c.alpha_set = true ∧ c.a_set = true ∧ c.beta_set = true
          ∧ c.b_set = true) →
      c.set_coeffs s
        = .error (.assertFail "alpha_set and a_set and beta_set and b_set")) ∧
    (c.eq_type = .invalid_eq →
      c.set_coeffs s
        = .error
            (.abort "FMultiGrid::ABecCoeff::set_coeffs: How did we get here?"))
    := by
  refine ⟨?_, ?_, ?_, ?_, ?_, ?_⟩ <;> intro ht
  · simp [ABecCoeff.set_coeffs, ht, hb, hr]
  · intro hbs
    simp [ABecCoeff.set_coeffs, ht, hb, hr, hbs]
  · intro hbs
    simp [ABecCoeff.set_coeffs, ht, hb, hr, hbs]
  · intro h1 h2 h3 h4
    simp [ABecCoeff.set_coeffs, ht, hb, hr, h1, h2, h3, h4]
  · intro hmiss
    simp only [ABecCoeff.set_coeffs, ht, hb, hr]
    rw [if_neg (by simpa using hb), if_neg (by simpa using hr)]
    rw [if_neg (by simp), if_neg (by simp), if_pos trivial, if_pos hmiss]
  · simp [ABecCoeff.set_coeffs, ht, hb, hr]

/-- Witness for C4 at a GeneralizedCoefficient with every sub-value set,
on a freshly constructed base-level-0 instance. -/
theorem C4_variant_dispatch_witness :
    ({ ABecCoeff.uninit with
        eq_type := .general_eq, alpha_set := true, a_set := true,
        beta_set := true, b_set := true, alpha := 3, beta := 5,
        a := [mfSample], b := [[mfSample, mfSample2]] } : ABecCoeff).set_coeffs
        (initState1 geomTenth 0 zeroVector)
      = .ok (.abeclap 3 [mfSample] 5 [[mfSample, mfSample2]]
          (xaArray (initState1 geomTenth 0 zeroVector))
          (xbArray (initState1 geomTenth 0 zeroVector))) := by
  have h := C4_variant_dispatch
    { ABecCoeff.uninit with
        eq_type := .general_eq, alpha_set := true, a_set := true,
        beta_set := true, b_set := true, alpha := 3, beta := 5,
        a := [mfSample], b := [[mfSample, mfSample2]] }
    (initState1 geomTenth 0 zeroVector)
    (by decide) (Or.inl rfl)
  exact h.2.2.2.1 rfl rfl rfl rfl rfl

/-- C5: the Boundary Coupler's case analysis on the (coarse, fine)
descriptor: both null registers homogeneous values; fine-only derives
boundary values from the fine field; coarse+fine first asserts the
refinement ratio is non-zero, coarsens the fine layout by the ratio,
builds an intermediate boundary register (radii 0/1/2) populated from the
coarse field with its ghost width, and derives interpolated values from
register, fine field and ratio; the coarse-only combination is a fatal
"how did we get here" abort. -/
theorem C5_boundary_cases (bc_codes : List Int) (c p : MultiFab) (r : IntVect) :
    ((Boundary.make bc_codes none none).set_bndry_values r
      = .ok .homogValues) ∧
    ((Boundary.make bc_codes none (some p)).set_bndry_values r
      = .ok (.fineValues p p.ncomp)) ∧
    (¬ r = zeroVector →
      (Boundary.make bc_codes (some c) (some p)).set_bndry_values r
        = .ok (.crseFineValues
            { boxes := coarsenBoxes p.boxes r, in_rad := 0, out_rad := 1,
              extent_rad := 2, ncomp := p.ncomp, src := c,
              src_ngrow := c.ngrow }
            p p.ncomp r)) ∧
    (r = zeroVector →
      (Boundary.make bc_codes (some c) (some p)).set_bndry_values r
        = .error (.assertFail "crse_ratio != IntVect::TheZeroVector()")) ∧
    ((Boundary.make bc_codes (some c) none).set_bndry_values r
      = .error
          (.abort "FMultiGrid::Boundary::build_bndry: How did we get here?"))
    := by
  refine ⟨rfl, rfl, ?_, ?_, rfl⟩
  · intro hr
    simp [Boundary.set_bndry_values, Boundary.make, hr]
  · intro hr
    simp [Boundary.set_bndry_values, Boundary.make, hr]

/-- Witness for C5's coarse+fine branch at a concrete non-zero ratio. -/
theorem C5_boundary_cases_witness :
    (Boundary.make [0, 0, 0, 0] (some mfSample2) (some mfSample)).set_bndry_values
        [2, 2]
      = .ok (.crseFineValues
          { boxes := coarsenBoxes mfSample.boxes [2, 2], in_rad := 0,
            out_rad := 1, extent_rad := 2, ncomp := mfSample.ncomp,
            src := mfSample2, src_ngrow := mfSample2.ngrow }
          mfSample mfSample.ncomp [2, 2]) := by
  exact (C5_boundary_cases [0, 0, 0, 0] mfSample2 mfSample [2, 2]).2.2.1
    (by decide)

/-- C6: set_bc may be called at most once: every successful set_bc leaves
the boundary descriptor initialized, and on an initialized instance every
overload fails — the homogeneous and fine-only overloads with the
double-initialization assert, the coarse-field overload likewise once its
own ratio precondition holds; additionally the coarse-field overload
rejects a zero refinement ratio up front, before ever using it. -/
theorem C6_set_bc_once (s s1 : State) (bc bc2 : List Int) (p c q d : MultiFab) :
    ((set_bc0 s bc = .ok s1 ∨ set_bc1 s bc p = .ok s1
        ∨ set_bc2 s bc c p = .ok s1) →
      s1.m_bc.initilized = true) ∧
    (s.m_bc.initilized = true →
      set_bc0 s bc2 = .error (.assertFail "!m_bc.initilized") ∧
      set_bc1 s bc2 q = .error (.assertFail "!m_bc.initilized") ∧
      (¬ s.m_crse_ratio = zeroVector →
        set_bc2 s bc2 d q = .error (.assertFail "!m_bc.initilized"))) ∧
    (s.m_crse_ratio = zeroVector →
      set_bc2 s bc c p
        = .error (.assertFail "m_crse_ratio != IntVect::TheZeroVector()")) := by
  refine ⟨?_, ?_, ?_⟩
  · rintro (h | h | h)
    · unfold set_bc0 at h
      split at h
      · cases h
      · cases h
        rfl
    · unfold set_bc1 at h
      split at h
      · cases h
      · cases h
        rfl
    · unfold set_bc2 at h
      split at h
      · cases h
      · split at h
        · cases h
        · cases h
          rfl
  · intro hinit
    refine ⟨?_, ?_, ?_⟩
    · simp [set_bc0, hinit]
    · simp [set_bc1, hinit]
    · intro hrz
      simp [set_bc2, hinit, hrz]
  · intro hrz
    simp [set_bc2, hrz]

/-- Witness for C6: on a concrete instance whose boundary descriptor is
already installed, a second set_bc through either simple overload fails
with the double-initialization assert, and on a concrete zero-ratio
instance the coarse-field overload fails with the ratio assert. -/
theorem C6_set_bc_once_witness :
    (set_bc0 { initState1 geomTenth 0 zeroVector with
        m_bc := Boundary.make [1, 1, 1, 1] none none } [2, 2, 2, 2]
      = .error (.assertFail "!m_bc.initilized")) ∧
    (set_bc1 { initState1 geomTenth 0 zeroVector with
        m_bc := Boundary.make [1, 1, 1, 1] none none } [2, 2, 2, 2] mfSample
      = .error (.assertFail "!m_bc.initilized")) ∧
    (set_bc2 (initState1 geomTenth 0 zeroVector) [1, 1, 1, 1] mfSample2 mfSample
      = .error (.assertFail "m_crse_ratio != IntVect::TheZeroVector()")) := by
  have h := C6_set_bc_once
    { initState1 geomTenth 0 zeroVector with
        m_bc := Boundary.make [1, 1, 1, 1] none none }
    { initState1 geomTenth 0 zeroVector with
        m_bc := Boundary.make [1, 1, 1, 1] none none }
    [1, 1, 1, 1] [2, 2, 2, 2] mfSample mfSample2 mfSample mfSample2
  have h0 := C6_set_bc_once (initState1 geomTenth 0 zeroVector)
    (initState1 geomTenth 0 zeroVector)
    [1, 1, 1, 1] [2, 2, 2, 2] mfSample mfSample2 mfSample mfSample2
  exact ⟨(h.2.1 rfl).1, (h.2.1 rfl).2.1, h0.2.2 rfl⟩

/-- C7: every coefficient setter succeeds only when the current variant
tag is Uninitialized or compatible with the requested variant and the
specific sub-value is still unset — the gravity-family setters demand the
tag be exactly Uninitialized, the generalized setters demand Uninitialized
or GeneralizedCoefficient plus their own sub-value flag clear; in
particular set_alpha after set_const_gravity_coeffs fails with the
variant-compatibility assert and a second set_acoef fails with the
duplicate-sub-value assert. -/
theorem C7_coeff_setter_guards (s t : State) (x y : ℚ) (af af2 : MultiFab)
    (aN aN2 : List MultiFab) (bPtr b1 bg : List MultiFab)
    (bN bgN : List (List MultiFab)) :
    (set_const_gravity_coeffs s = .ok t → s.m_coeff.eq_type = .invalid_eq) ∧
    (set_gravity_coeffs1 s bg = .ok t → s.m_coeff.eq_type = .invalid_eq) ∧
    (set_gravity_coeffsN s bgN = .ok t → s.m_coeff.eq_type = .invalid_eq) ∧
    (set_alpha s x = .ok t →
      (s.m_coeff.eq_type = .invalid_eq ∨ s.m_coeff.eq_type = .general_eq)
        ∧ s.m_coeff.alpha_set = false) ∧
    (set_acoef1 s af = .ok t →
      (s.m_coeff.eq_type = .invalid_eq ∨ s.m_coeff.eq_type = .general_eq)
        ∧ s.m_coeff.a_set = false) ∧
    (set_acoefN s aN = .ok t →
      (s.m_coeff.eq_type = .invalid_eq ∨ s.m_coeff.eq_type = .general_eq)
        ∧ s.m_coeff.a_set = false) ∧
    (set_beta s y = .ok t →
      (s.m_coeff.eq_type = .invalid_eq ∨ s.m_coeff.eq_type = .general_eq)
        ∧ s.m_coeff.beta_set = false) ∧
    (set_bcoefP s bPtr = .ok t →
      (s.m_coeff.eq_type = .invalid_eq ∨ s.m_coeff.eq_type = .general_eq)
        ∧ s.m_coeff.b_set = false) ∧
    (set_bcoef1 s b1 = .ok t →
      (s.m_coeff.eq_type = .invalid_eq ∨ s.m_coeff.eq_type = .general_eq)
        ∧ s.m_coeff.b_set = false) ∧
    (set_bcoefN s bN = .ok t →
      (s.m_coeff.eq_type = .invalid_eq ∨ s.m_coeff.eq_type = .general_eq)
        ∧ s.m_coeff.b_set = false) ∧
    (set_const_gravity_coeffs s = .ok t →
      set_alpha t x
        = .error (.assertFail "m_coeff.eq_type == invalid_eq or general_eq")) ∧
    (set_acoef1 s af = .ok t →
      set_acoef1 t af2 = .error (.assertFail "!m_coeff.a_set")) ∧
    (set_acoefN s aN = .ok t →
      set_acoefN t aN2 = .error (.assertFail "!m_coeff.a_set")) := by
  refine ⟨?_, ?_, ?_, ?_, ?_, ?_, ?_, ?_, ?_, ?_, ?_, ?_, ?_⟩ <;> intro h
  · simp only [set_const_gravity_coeffs] at h
    split_ifs at h with h1
    exact h1
  · simp only [set_gravity_coeffs1] at h
    split_ifs at h with h1 h2 h3
    exact h1
  · simp only [set_gravity_coeffsN] at h
    split_ifs at h with h1 h2 h3
    exact h1
  · simp only [set_alpha] at h
    split_ifs at h with h1 h2
    exact ⟨h1, by simpa using h2⟩
  · simp only [set_acoef1] at h
    split_ifs at h with h1 h2 h3
    exact ⟨h1, by simpa using h2⟩
  · simp only [set_acoefN] at h
    split_ifs at h with h1 h2 h3
    exact ⟨h1, by simpa using h2⟩
  · simp only [set_beta] at h
    split_ifs at h with h1 h2
    exact ⟨h1, by simpa using h2⟩
  · simp only [set_bcoefP] at h
    split_ifs at h with h1 h2 h3
    exact ⟨h1, by simpa using h2⟩
  · simp only [set_bcoef1] at h
    split_ifs at h with h1 h2 h3 h4
    exact ⟨h1, by simpa using h2⟩
  · simp only [set_bcoefN] at h
    split_ifs at h with h1 h2 h3 h4
    exact ⟨h1, by simpa using h2⟩
  · simp only [set_const_gravity_coeffs] at h
    split_ifs at h with h1
    cases h
    simp [set_alpha]
  · simp only [set_acoef1] at h
    split_ifs at h with h1 h2 h3
    cases h
    simp [set_acoef1]
  · simp only [set_acoefN] at h
    split_ifs at h with h1 h2 h3
    cases h
    simp [set_acoefN]

/-- Witness for C7's particular scenarios on a concrete fresh instance:
set_alpha after set_const_gravity_coeffs fails with the incompatible-variant
assert, and a second set_acoef fails with the duplicate-sub-value assert. -/
theorem C7_coeff_setter_guards_witness :
    (set_alpha { initState1 geomTenth 0 zeroVector with
        m_coeff := { ABecCoeff.uninit with eq_type := .const_gravity_eq } } 3
      = .error (.assertFail "m_coeff.eq_type == invalid_eq or general_eq")) ∧
    (set_acoef1 { initState1 geomTenth 0 zeroVector with
        m_coeff := { ABecCoeff.uninit with
          eq_type := .general_eq, a_set := true, a := [mfSample] } } mfSample2
      = .error (.assertFail "!m_coeff.a_set")) := by
  have h := C7_coeff_setter_guards (initState1 geomTenth 0 zeroVector)
    { initState1 geomTenth 0 zeroVector with
        m_coeff := { ABecCoeff.uninit with eq_type := .const_gravity_eq } }
    3 0 mfSample mfSample2 [mfSample] [mfSample2] [mfSample, mfSample2]
    [mfSample, mfSample2] [mfSample, mfSample2] [[mfSample, mfSample2]]
    [[mfSample, mfSample2]]
  have h2 := C7_coeff_setter_guards (initState1 geomTenth 0 zeroVector)
    { initState1 geomTenth 0 zeroVector with
        m_coeff := { ABecCoeff.uninit with
          eq_type := .general_eq, a_set := true, a := [mfSample] } }
    3 0 mfSample mfSample2 [mfSample] [mfSample2] [mfSample, mfSample2]
    [mfSample, mfSample2] [mfSample, mfSample2] [[mfSample, mfSample2]]
    [[mfSample, mfSample2]]
  exact ⟨h.2.2.2.2.2.2.2.2.2.2.1 rfl, h2.2.2.2.2.2.2.2.2.2.2.2.1 rfl⟩

/-- On success, init_mgt_solver installs the freshly built solver handle
and boundary register and changes nothing else in the state; it requires
the boundary descriptor installed, the coefficient variant finalized and
the handle still null. -/
theorem init_mgt_solver_ok (s t : State) (phi : List MultiFab)
    (mgt : MGTSolver) (bndry : MacBndry)
    (h : init_mgt_solver s phi = .ok (t, mgt, bndry)) :
    t = { s with m_mgt_solver := some mgt, m_bndry := some bndry } ∧
    s.m_mgt_solver = none ∧ s.m_bc.initilized = true ∧
    ¬ s.m_coeff.eq_type = .invalid_eq := by
  simp only [init_mgt_solver] at h
  split_ifs at h with h1 h2 h3
  split at h
  · cases h
  · split at h
    · cases h
    · cases h
      exact ⟨rfl, h3, h1, h2⟩

/-- C8: solve and compute_residual require the boundary descriptor
finalized, the coefficient variant finalized and the solver handle (and
boundary register) not yet constructed; on the first successful call the
handle is constructed, and a second solve or compute_residual on the
resulting state fails on the handle assert; no configuration operation
ever resets the handle. -/
theorem C8_solver_lifecycle (k k2 : KernelSolve) (kr kr2 : KernelResidual)
    (s t s2 : State) (phi rhs res phi2 rhs2 res2 : List MultiFab)
    (out : ℚ) (rt ab rt2 ab2 : ℚ) (aub ngp vb aub2 ngp2 vb2 : Int)
    (resOut : List MultiFab) (bc : List Int) (pf cf : MultiFab) (x y : ℚ)
    (af : MultiFab) (aN bP b1 bg : List MultiFab)
    (bN bgN : List (List MultiFab)) :
    (solveN k s phi rhs rt ab aub ngp vb = .ok (s2, out) →
      s.m_bc.initilized = true ∧ ¬ s.m_coeff.eq_type = .invalid_eq ∧
      s.m_mgt_solver = none ∧ s.m_bndry = none) ∧
    (compute_residualN kr s phi rhs res = .ok (s2, resOut) →
      s.m_bc.initilized = true ∧ ¬ s.m_coeff.eq_type = .invalid_eq ∧
      s.m_mgt_solver = none ∧ s.m_bndry = none) ∧
    (solveN k s phi rhs rt ab aub ngp vb = .ok (s2, out) →
      ¬ s2.m_mgt_solver = none ∧ ¬ s2.m_bndry = none ∧
      solveN k2 s2 phi2 rhs2 rt2 ab2 aub2 ngp2 vb2
        = .error (.assertFail "m_mgt_solver == 0") ∧
      compute_residualN kr2 s2 phi2 rhs2 res2
        = .error (.assertFail "m_mgt_solver == 0")) ∧
    (compute_residualN kr s phi rhs res = .ok (s2, resOut) →
      ¬ s2.m_mgt_solver = none ∧ ¬ s2.m_bndry = none ∧
      solveN k2 s2 phi2 rhs2 rt2 ab2 aub2 ngp2 vb2
        = .error (.assertFail "m_mgt_solver == 0") ∧
      compute_residualN kr2 s2 phi2 rhs2 res2
        = .error (.assertFail "m_mgt_solver == 0")) ∧
    (set_bc0 s bc = .ok t → t.m_mgt_solver = s.m_mgt_solver) ∧
    (set_bc1 s bc pf = .ok t → t.m_mgt_solver = s.m_mgt_solver) ∧
    (set_bc2 s bc cf pf = .ok t → t.m_mgt_solver = s.m_mgt_solver) ∧
    (set_const_gravity_coeffs s = .ok t → t.m_mgt_solver = s.m_mgt_solver) ∧
    (set_gravity_coeffs1 s bg = .ok t → t.m_mgt_solver = s.m_mgt_solver) ∧
    (set_gravity_coeffsN s bgN = .ok t → t.m_mgt_solver = s.m_mgt_solver) ∧
    (set_alpha s x = .ok t → t.m_mgt_solver = s.m_mgt_solver) ∧
    (set_acoef1 s af = .ok t → t.m_mgt_solver = s.m_mgt_solver) ∧
    (set_acoefN s aN = .ok t → t.m_mgt_solver = s.m_mgt_solver) ∧
    (set_beta s y = .ok t → t.m_mgt_solver = s.m_mgt_solver) ∧
    (set_bcoefP s bP = .ok t → t.m_mgt_solver = s.m_mgt_solver) ∧
    (set_bcoef1 s b1 = .ok t → t.m_mgt_solver = s.m_mgt_solver) ∧
    (set_bcoefN s bN = .ok t → t.m_mgt_solver = s.m_mgt_solver) := by
  refine ⟨?_, ?_, ?_, ?_, ?_, ?_, ?_, ?_, ?_, ?_, ?_, ?_, ?_, ?_, ?_, ?_, ?_⟩
    <;> intro h
  · simp only [solveN] at h
    split_ifs at h with h1 h2 h3 h4
    exact ⟨h1, h2, h3, h4⟩
  · simp only [compute_residualN] at h
    split_ifs at h with h1 h2 h3 h4
    exact ⟨h1, h2, h3, h4⟩
  · simp only [solveN] at h
    split_ifs at h with h1 h2 h3 h4
    cases hinit : init_mgt_solver s phi with
    | error e => rw [hinit] at h; cases h
    | ok tr =>
        obtain ⟨u, mgt, bndry⟩ := tr
        rw [hinit] at h
        cases h
        have hi := init_mgt_solver_ok _ _ _ _ _ hinit
        rw [hi.1]
        refine ⟨by simp, by simp, ?_, ?_⟩
        · simp [solveN, h1, h2]
        · simp [compute_residualN, h1, h2]
  · simp only [compute_residualN] at h
    split_ifs at h with h1 h2 h3 h4
    cases hinit : init_mgt_solver s phi with
    | error e => rw [hinit] at h; cases h
    | ok tr =>
        obtain ⟨u, mgt, bndry⟩ := tr
        rw [hinit] at h
        cases h
        have hi := init_mgt_solver_ok _ _ _ _ _ hinit
        rw [hi.1]
        refine ⟨by simp, by simp, ?_, ?_⟩
        · simp [solveN, h1, h2]
        · simp [compute_residualN, h1, h2]
  · simp only [set_bc0] at h
    split_ifs at h with h1
    cases h
    rfl
  · simp only [set_bc1] at h
    split_ifs at h with h1
    cases h
    rfl
  · simp only [set_bc2] at h
    split_ifs at h with h1 h2
    cases h
    rfl
  · simp only [set_const_gravity_coeffs] at h
    split_ifs at h with h1
    cases h
    rfl
  · simp only [set_gravity_coeffs1] at h
    split_ifs at h with h1 h2 h3
    cases h
    rfl
  · simp only [set_gravity_coeffsN] at h
    split_ifs at h with h1 h2 h3
    cases h
    rfl
  · simp only [set_alpha] at h
    split_ifs at h with h1 h2
    cases h
    rfl
  · simp only [set_acoef1] at h
    split_ifs at h with h1 h2 h3
    cases h
    rfl
  · simp only [set_acoefN] at h
    split_ifs at h with h1 h2 h3
    cases h
    rfl
  · simp only [set_beta] at h
    split_ifs at h with h1 h2
    cases h
    rfl
  · simp only [set_bcoefP] at h
    split_ifs at h with h1 h2 h3
    cases h
    rfl
  · simp only [set_bcoef1] at h
    split_ifs at h with h1 h2 h3 h4
    cases h
    rfl
  · simp only [set_bcoefN] at h
    split_ifs at h with h1 h2 h3 h4
    cases h
    rfl

/-- Witness for C8: the concrete already-solved state rejects a second
solve and a second compute_residual on the solver-handle assert. -/
theorem C8_solver_lifecycle_witness :
    ¬ stSolved.m_mgt_solver = none ∧ ¬ stSolved.m_bndry = none ∧
    solveN kernelZero stSolved [mfSample] [mfSample2] 0 0 0 0 0
      = .error (.assertFail "m_mgt_solver == 0") ∧
    compute_residualN kernelResidZero stSolved [mfSample] [mfSample2] [mfSample]
      = .error (.assertFail "m_mgt_solver == 0") := by
  have h := C8_solver_lifecycle kernelZero kernelZero kernelResidZero
    kernelResidZero stReady stReady stSolved [mfSample] [mfSample2] [mfSample]
    [mfSample] [mfSample2] [mfSample] 0 0 0 0 0 0 0 0 0 0 0 [mfSample]
    [1, 1, 1, 1] mfSample mfSample2 0 0 mfSample [mfSample] [mfSample]
    [mfSample] [mfSample] [[mfSample]] [[mfSample]]
  exact h.2.2.1 rfl

/-- C9: the single-field public overloads carry an implicit single-level
precondition: set_acoef(MultiFab), set_bcoef(MultiFab*), the
dimension-indexed set_bcoef(PArray), set_gravity_coeffs(PArray) and the
single-level get_grad_phi(PArray) succeed only when m_nlevels = 1 and fail
an assertion otherwise; the multi-level overloads instead require their
per-level array length to equal m_nlevels. -/
theorem C9_single_level_preconditions (s t : State) (af : MultiFab)
    (aN bP b1 bg : List MultiFab) (bN bgN : List (List MultiFab))
    (gp : MGTSolver × List ℚ) :
    (set_acoef1 s af = .ok t → s.m_nlevels = 1) ∧
    (set_bcoefP s bP = .ok t → s.m_nlevels = 1) ∧
    (set_bcoef1 s b1 = .ok t → s.m_nlevels = 1 ∧ b1.length = BL_SPACEDIM) ∧
    (set_gravity_coeffs1 s bg = .ok t →
      s.m_nlevels = 1 ∧ bg.length = BL_SPACEDIM) ∧
    (get_grad_phi1 s = .ok gp → s.m_nlevels = 1) ∧
    (¬ s.m_nlevels = 1 →
      get_grad_phi1 s = .error (.assertFail "m_nlevels == 1") ∧
      (∃ c1, set_acoef1 s af = .error (.assertFail c1)) ∧
      (∃ c2, set_bcoefP s bP = .error (.assertFail c2)) ∧
      (∃ c3, set_bcoef1 s b1 = .error (.assertFail c3)) ∧
      (∃ c4, set_gravity_coeffs1 s bg = .error (.assertFail c4))) ∧
    (set_acoefN s aN = .ok t → s.m_nlevels = aN.length) ∧
    (set_bcoefN s bN = .ok t →
      s.m_nlevels = bN.length ∧ (bN.getD 0 []).length = BL_SPACEDIM) ∧
    (set_gravity_coeffsN s bgN = .ok t →
      bgN.length = s.m_nlevels ∧ (bgN.getD 0 []).length = BL_SPACEDIM) := by
  refine ⟨?_, ?_, ?_, ?_, ?_, ?_, ?_, ?_, ?_⟩
  · intro h
    simp only [set_acoef1] at h
    split_ifs at h with h1 h2 h3
    exact h3
  · intro h
    simp only [set_bcoefP] at h
    split_ifs at h with h1 h2 h3
    exact h3
  · intro h
    simp only [set_bcoef1] at h
    split_ifs at h with h1 h2 h3 h4
    exact ⟨h3, h4⟩
  · intro h
    simp only [set_gravity_coeffs1] at h
    split_ifs at h with h1 h2 h3
    exact ⟨h2, h3⟩
  · intro h
    simp only [get_grad_phi1] at h
    split_ifs at h with h1
    exact h1
  · intro hne
    refine ⟨by simp [get_grad_phi1, hne], ?_, ?_, ?_, ?_⟩
    · simp only [set_acoef1]
      split_ifs <;> exact ⟨_, rfl⟩
    · simp only [set_bcoefP]
      split_ifs <;> exact ⟨_, rfl⟩
    · simp only [set_bcoef1]
      split_ifs <;> exact ⟨_, rfl⟩
    · simp only [set_gravity_coeffs1]
      split_ifs <;> exact ⟨_, rfl⟩
  · intro h
    simp only [set_acoefN] at h
    split_ifs at h with h1 h2 h3
    exact h3
  · intro h
    simp only [set_bcoefN] at h
    split_ifs at h with h1 h2 h3 h4
    exact ⟨h3, h4⟩
  · intro h
    simp only [set_gravity_coeffsN] at h
    split_ifs at h with h1 h2 h3
    exact ⟨h2, h3⟩

/-- Witness for C9 on a concrete two-level instance: the single-level
overloads fail assertions. -/
theorem C9_single_level_preconditions_witness :
    get_grad_phi1 (initStateN [geomTenth, geomTwentieth] 0 zeroVector)
      = .error (.assertFail "m_nlevels == 1") ∧
    (∃ c1, set_acoef1 (initStateN [geomTenth, geomTwentieth] 0 zeroVector)
        mfSample = .error (.assertFail c1)) := by
  have h := C9_single_level_preconditions
    (initStateN [geomTenth, geomTwentieth] 0 zeroVector)
    (initStateN [geomTenth, geomTwentieth] 0 zeroVector)
    mfSample [mfSample] [mfSample] [mfSample, mfSample2]
    [mfSample, mfSample2] [[mfSample]] [[mfSample]]
    (mgtReady, [])
  have h6 := h.2.2.2.2.2.1 (by decide)
  exact ⟨h6.1, h6.2.1⟩

/-- C10: the single-MultiFab overloads of solve and compute_residual are
the multi-level overloads applied to the one-element level arrays that
FMultiGrid::Copy builds around the same fields: they agree on every state,
kernel and argument list. -/
theorem C10_single_field_wrappers (k : KernelSolve) (kr : KernelResidual)
    (s : State) (phi rhs res : MultiFab) (rt ab : ℚ) (aub ngp vb : Int) :
    solve1 k s phi rhs rt ab aub ngp vb
      = solveN k s [phi] [rhs] rt ab aub ngp vb ∧
    compute_residual1 kr s phi rhs res
      = compute_residualN kr s [phi] [rhs] [res] ∧
    Copy1 phi = [phi] :=
  ⟨rfl, rfl, rfl⟩

end FMG
